import Mathlib

/-!
Verification of the paper-reading agent's orchestration engine against its
natural-language specification.

The development shallowly embeds the Python source:
* `backend/agents/image_extractor.py` (`OnDemandImageExtractor`): coordinate
  normalization, crop-and-save pipeline, batch extraction;
* `backend/agents/agent.py` (`ConversationalPaperAgent`): the `execute_step`
  and `display_images` tool branches, the bounded tool-call loop, text
  extraction, and the defensive JSON parsing of model output.

Machine integers are modelled as `Int`, JSON numbers as `Rat` (the source
computes with exact Python ints/floats; every concrete input used below is
exact in both models).  Filesystem writes are abstracted by a `saveOk`
oracle; the LLM, page renderer and vision detector are abstracted as function
parameters, matching the spec's collaborator interfaces.
-/

set_option maxRecDepth 100000

/-- Python `int(q)` on an exact rational: truncation toward zero
(`image_extractor.py` uses `int(...)` on every converted coordinate). -/
def pyTrunc (q : ℚ) : ℤ :=
  Int.tdiv q.num (q.den : ℤ)

/-- Python `int(q * z)`: truncation of the exact product, written over the
numerator/denominator so that it evaluates by kernel reduction; the theorem
`pyIntMul_eq_pyTrunc` below certifies it equals `pyTrunc (q * z)`. -/
def pyIntMul (q : ℚ) (z : ℤ) : ℤ :=
  Int.tdiv (q.num * z) (q.den : ℤ)

/-- Python `int((q / 1000.0) * z)` for the per-mille branch, in the same
evaluable form; certified by `pyIntPerMille_eq_pyTrunc` below. -/
def pyIntPerMille (q : ℚ) (z : ℤ) : ℤ :=
  Int.tdiv (q.num * z) ((q.den : ℤ) * 1000)

/-- A pixel rectangle `(x_min, y_min, x_max, y_max)` as used by `image.crop`. -/
structure Rect where
  x0 : ℤ
  y0 : ℤ
  x1 : ℤ
  y1 : ℤ
deriving DecidableEq

/-- A rendered page raster; only its `image.size = (width, height)` is
observed by the cropping code. -/
structure PageImage where
  width : ℤ
  height : ℤ
deriving DecidableEq

/-- Bounding-box format dispatch and conversion to pixel coordinates,
`image_extractor.py` lines 282-303: dispatch on `max(bbox)`;
`max ≤ 1` fractional `[x_min, y_min, x_max, y_max]`;
`max ≤ 1000` per-mille with the axis order reversed `[ymin, xmin, ymax, xmax]`;
otherwise direct pixel coordinates. -/
def normalizeBbox (b0 b1 b2 b3 : ℚ) (w h : ℤ) : Rect :=
  let m := max b0 (max b1 (max b2 b3))
  if m ≤ 1 then
    ⟨pyIntMul b0 w, pyIntMul b1 h, pyIntMul b2 w, pyIntMul b3 h⟩
  else if m ≤ 1000 then
    ⟨pyIntPerMille b1 w, pyIntPerMille b0 h, pyIntPerMille b3 w, pyIntPerMille b2 h⟩
  else
    ⟨pyTrunc b0, pyTrunc b1, pyTrunc b2, pyTrunc b3⟩

/-- Padding by 10 pixels and clamping to the image bounds,
`image_extractor.py` lines 305-309. -/
def padClamp (w h : ℤ) (r : Rect) : Rect :=
  ⟨max 0 (r.x0 - 10), max 0 (r.y0 - 10), min w (r.x1 + 10), min h (r.y1 + 10)⟩

/-- The spec's containment property for a (possibly empty) rectangle: every
point of the rectangle lies inside `[0,w] × [0,h]`. -/
def rectWithin (r : Rect) (w h : ℤ) : Prop :=
  ∀ x y : ℤ, r.x0 ≤ x → x ≤ r.x1 → r.y0 ≤ y → y ≤ r.y1 →
    0 ≤ x ∧ x ≤ w ∧ 0 ≤ y ∧ y ≤ h

/-- JSON values; numbers are exact rationals. -/
inductive Json where
  | null : Json
  | bool : Bool → Json
  | num : ℚ → Json
  | str : String → Json
  | arr : List Json → Json
  | obj : List (String × Json) → Json

/-- Python `dict.get(k)` on a decoded JSON object (`None` i.e. `none` when the
receiver is not a dict — the source's per-item `try` turns the resulting
`AttributeError` into a skip, which every caller below mirrors).  On duplicate
keys Python keeps the last occurrence. -/
def jsonGet (j : Json) (k : String) : Option Json :=
  match j with
  | Json.obj kvs => (kvs.reverse.find? (fun kv => kv.1 == k)).map (fun kv => kv.2)
  | _ => none

/-- Python `d.get(k, default)` returning a string field; detections produced
by the modelled detector carry string `title`/`type` fields, so only the
string and missing cases arise. -/
def jsonGetStr (j : Json) (k : String) (d : String) : String :=
  match jsonGet j k with
  | some (Json.str s) => s
  | _ => d

/-- Python `str(...)` of a JSON-decoded page number (an integer in every
request the tool schema admits). -/
def pyNumStr (q : ℚ) : String :=
  if q.den = 1 then toString q.num else toString q

/-- One catalog entry (`fig_data`, `image_extractor.py` lines 348-355). -/
structure FigData where
  page : ℚ
  title : String
  figType : String
  description : String
  path : String
  path_relative : String
deriving DecidableEq

/-- Immutable per-session extractor configuration: `self.pdf_stem`,
`self.paper_folder` and `basename(self.paper_folder)`. -/
structure ExtractorConfig where
  pdfStem : String
  paperFolder : String
  folderName : String
deriving DecidableEq

/-- Mutable extractor state: `self.extraction_count` and
`self.extracted_images` (the session figure catalog). -/
structure ExtractorState where
  extraction_count : ℕ
  extracted_images : List FigData
deriving DecidableEq

/-- `page_num not in page_images` lookup; dict keys are the ints of the
grouped requests, the detection's page is a decoded JSON number. -/
def lookupPageImage (pages : List (ℤ × PageImage)) (p : ℚ) : Option PageImage :=
  (pages.find? (fun e => ((e.1 : ℚ) == p))).map (fun e => e.2)

/-- `det.get("bbox", [0, 0, 1000, 1000])` default. -/
def defaultBbox : Json :=
  Json.arr [Json.num 0, Json.num 0, Json.num 1000, Json.num 1000]

/-- The bbox validity gate of lines 275-280: a list of exactly four numbers
(anything else — missing page arithmetic aside — is skipped by the guards or
by the per-detection `try`). -/
def bboxNums (j : Json) : Option (ℚ × ℚ × ℚ × ℚ) :=
  match j with
  | Json.arr [Json.num a, Json.num b, Json.num c, Json.num d] => some (a, b, c, d)
  | _ => none

/-- The pixel rectangle a detection will be cropped to, when its page is
rendered and its bbox is well-formed (lines 265-309): page lookup, bbox
default and validation, format dispatch, padding and clamping. -/
def cropRect (pages : List (ℤ × PageImage)) (det : Json) : Option Rect :=
  match jsonGet det ("page") with
  | some (Json.num p) =>
    match lookupPageImage pages p with
    | some img =>
      match bboxNums ((jsonGet det ("bbox")).getD defaultBbox) with
      | some (b0, b1, b2, b3) =>
        some (padClamp img.width img.height
          (normalizeBbox b0 b1 b2 b3 img.width img.height))
      | none => none
    | none => none
  | _ => none

/-- Markdown image reference `f"![{title}]({path})"`. -/
def mdRef (title path : String) : String :=
  "![" ++ title ++ "](" ++ path ++ ")"

/-- One iteration of the crop-and-save loop (lines 263-362) acting on
`(state, extracted-so-far)`.  A failed guard (unrendered page, malformed
bbox), a degenerate rectangle, or a failed/empty file write (`saveOk` false)
skips the detection, leaving state untouched; a successful save builds the
filename from the pre-increment counter `+ 1`, increments the counter, and
appends the record to both the batch output and the session catalog. -/
def cropStep (pages : List (ℤ × PageImage)) (cfg : ExtractorConfig)
    (saveOk : String → Bool) (acc : ExtractorState × List FigData)
    (det : Json) : ExtractorState × List FigData :=
  match jsonGet det ("page"), cropRect pages det with
  | some (Json.num p), some r =>
    if r.x1 ≤ r.x0 ∨ r.y1 ≤ r.y0 then acc
    else
      let s := acc.1
      let figType := jsonGetStr det ("type") ("figure")
      let n := s.extraction_count + 1
      let fname := cfg.pdfStem ++ "_page" ++ pyNumStr p ++ "_fig" ++
        toString n ++ "_" ++ figType ++ ".png"
      if saveOk fname then
        let fd : FigData :=
          { page := p
            title := jsonGetStr det ("title") ("Figure " ++ toString n)
            figType := figType
            description := jsonGetStr det ("matched_description") ("")
            path := cfg.paperFolder ++ "/" ++ fname
            path_relative := "uploads/" ++ cfg.folderName ++ "/" ++ fname }
        (⟨n, s.extracted_images ++ [fd]⟩, acc.2 ++ [fd])
      else acc
  | _, _ => acc

/-- `_crop_and_save_batch` (lines 251-365): fold the per-detection step over
the detection list, returning the updated state and the newly saved records. -/
def cropAndSave (pages : List (ℤ × PageImage)) (cfg : ExtractorConfig)
    (saveOk : String → Bool) (dets : List Json) (s : ExtractorState) :
    ExtractorState × List FigData :=
  dets.foldl (cropStep pages cfg saveOk) (s, [])

/-- One entry of the `images_to_extract` argument; both fields are optional
(`req.get("page_number", 1)`, `req.get("description", "figure")`). -/
structure ExtractRequest where
  page_number : Option ℤ
  description : Option String
deriving DecidableEq

/-- One step of the request-grouping loop (lines 70-74): Python dicts keep
insertion order, so grouping is an ordered association list. -/
def addRequest (acc : List (ℤ × List String)) (req : ExtractRequest) :
    List (ℤ × List String) :=
  let p := req.page_number.getD 1
  let d := req.description.getD ("figure")
  if acc.any (fun e => e.1 == p) then
    acc.map (fun e => if e.1 == p then (e.1, e.2 ++ [d]) else e)
  else acc ++ [(p, [d])]

/-- `page_requests`: group requested descriptions by page number. -/
def groupRequests (reqs : List ExtractRequest) : List (ℤ × List String) :=
  reqs.foldl addRequest []

/-- Page rendering (lines 83-94): an out-of-range page, or one the renderer
fails on, is skipped; `render` abstracts `page.get_pixmap`. -/
def renderPages (pageCount : ℕ) (render : ℤ → Option PageImage)
    (grouped : List (ℤ × List String)) : List (ℤ × PageImage) :=
  grouped.filterMap (fun e =>
    if e.1 < 1 ∨ (pageCount : ℤ) < e.1 then none
    else (render e.1).map (fun img => (e.1, img)))

/-- JSON insignificant whitespace. -/
def jsonWs (c : Char) : Bool :=
  c == ' ' || c == '\t' || c == '\n' || c == '\r'

/-- The `\x7b` character. -/
def lbraceChar : Char := Char.ofNat 123

/-- The `\x7d` character. -/
def rbraceChar : Char := Char.ofNat 125

/-- The backtick character. -/
def btChar : Char := Char.ofNat 96

/-- Read a maximal digit run: value, digit count, remainder. -/
def readDigitsAux : List Char → ℕ → ℕ → ℕ × ℕ × List Char
  | [], v, n => (v, n, [])
  | c :: rest, v, n =>
    if c.isDigit then readDigitsAux rest (v * 10 + (c.toNat - 48)) (n + 1)
    else (v, n, c :: rest)

/-- Optional exponent part of a JSON number. -/
def parseExpPart (cs : List Char) : Option (ℤ × List Char) :=
  match cs with
  | 'e' :: rest | 'E' :: rest =>
    let sr : ℤ × List Char :=
      match rest with
      | '+' :: r => (1, r)
      | '-' :: r => (-1, r)
      | _ => (1, rest)
    let dr := readDigitsAux sr.2 0 0
    if dr.2.1 = 0 then none else some (sr.1 * (dr.1 : ℤ), dr.2.2)
  | _ => some (0, cs)

/-- JSON number literal, read as its exact decimal value
`sign · (intPart.fracDigits) · 10^exp`, assembled through `Rat.divInt`. -/
def parseNumber (cs : List Char) : Option (ℚ × List Char) :=
  let sg : ℤ × List Char :=
    match cs with
    | '-' :: rest => (-1, rest)
    | _ => (1, cs)
  let ir := readDigitsAux sg.2 0 0
  if ir.2.1 = 0 then none
  else
    let frOpt : Option (ℕ × ℕ × List Char) :=
      match ir.2.2 with
      | '.' :: rest =>
        let fr := readDigitsAux rest 0 0
        if fr.2.1 = 0 then none else some (fr.1, fr.2.1, fr.2.2)
      | _ => some (0, 0, ir.2.2)
    match frOpt with
    | none => none
    | some (fv, fn, cs3) =>
      match parseExpPart cs3 with
      | none => none
      | some (e, cs4) =>
        let mant : ℤ := sg.1 * ((ir.1 : ℤ) * (10 : ℤ) ^ fn + (fv : ℤ))
        let v : ℚ :=
          if 0 ≤ e then Rat.divInt (mant * (10 : ℤ) ^ e.toNat) ((10 : ℤ) ^ fn)
          else Rat.divInt mant ((10 : ℤ) ^ fn * (10 : ℤ) ^ (-e).toNat)
        some (v, cs4)

/-- JSON string literal body (after the opening quote), with the common
escapes; the accumulator is reversed. -/
def parseStringAux : List Char → List Char → Option (String × List Char)
  | [], _ => none
  | '"' :: rest, acc => some (String.mk acc.reverse, rest)
  | '\\' :: e :: rest, acc =>
    if e == '"' then parseStringAux rest ('"' :: acc)
    else if e == '\\' then parseStringAux rest ('\\' :: acc)
    else if e == '/' then parseStringAux rest ('/' :: acc)
    else if e == 'n' then parseStringAux rest ('\n' :: acc)
    else if e == 't' then parseStringAux rest ('\t' :: acc)
    else if e == 'r' then parseStringAux rest ('\r' :: acc)
    else if e == 'b' then parseStringAux rest (Char.ofNat 8 :: acc)
    else if e == 'f' then parseStringAux rest (Char.ofNat 12 :: acc)
    else none
  | c :: rest, acc => parseStringAux rest (c :: acc)

mutual

/-- Fuel-indexed JSON value grammar (model of `json.loads`). -/
def parseJson : ℕ → List Char → Option (Json × List Char)
  | 0, _ => none
  | fuel + 1, cs =>
    match cs.dropWhile jsonWs with
    | [] => none
    | c :: rest =>
      if c == '"' then (parseStringAux rest []).map (fun x => (Json.str x.1, x.2))
      else if c == '[' then
        match rest.dropWhile jsonWs with
        | ']' :: r2 => some (Json.arr [], r2)
        | _ => (parseItems fuel rest).map (fun x => (Json.arr x.1, x.2))
      else if c == lbraceChar then
        match rest.dropWhile jsonWs with
        | [] => none
        | d :: r2 =>
          if d == rbraceChar then some (Json.obj [], r2)
          else (parseFields fuel rest).map (fun x => (Json.obj x.1, x.2))
      else if c == 'n' then
        match rest with
        | 'u' :: 'l' :: 'l' :: r => some (Json.null, r)
        | _ => none
      else if c == 't' then
        match rest with
        | 'r' :: 'u' :: 'e' :: r => some (Json.bool true, r)
        | _ => none
      else if c == 'f' then
        match rest with
        | 'a' :: 'l' :: 's' :: 'e' :: r => some (Json.bool false, r)
        | _ => none
      else (parseNumber (c :: rest)).map (fun x => (Json.num x.1, x.2))

/-- Comma-separated array items up to the closing bracket. -/
def parseItems : ℕ → List Char → Option (List Json × List Char)
  | 0, _ => none
  | fuel + 1, cs =>
    match parseJson fuel cs with
    | none => none
    | some (j, rest) =>
      match rest.dropWhile jsonWs with
      | ',' :: r2 => (parseItems fuel r2).map (fun x => (j :: x.1, x.2))
      | ']' :: r2 => some ([j], r2)
      | _ => none

/-- Comma-separated object fields up to the closing brace. -/
def parseFields : ℕ → List Char → Option (List (String × Json) × List Char)
  | 0, _ => none
  | fuel + 1, cs =>
    match cs.dropWhile jsonWs with
    | '"' :: rest =>
      match parseStringAux rest [] with
      | none => none
      | some (k, r1) =>
        match r1.dropWhile jsonWs with
        | ':' :: r2 =>
          match parseJson fuel r2 with
          | none => none
          | some (v, r3) =>
            match r3.dropWhile jsonWs with
            | [] => none
            | ',' :: r4 => (parseFields fuel r4).map (fun x => ((k, v) :: x.1, x.2))
            | d :: r4 => if d == rbraceChar then some ([(k, v)], r4) else none
        | _ => none
    | _ => none

end

/-- `json.loads`: a single value, tolerating surrounding whitespace,
rejecting trailing data; `none` models `JSONDecodeError`. -/
def jsonDecode (s : String) : Option Json :=
  match parseJson (2 * s.length + 2) s.toList with
  | some (j, rest) => if rest.dropWhile jsonWs = [] then some j else none
  | none => none

/-- The ```` ```json ```` fence opener. -/
def fenceHead : List Char := [btChar, btChar, btChar, 'j', 's', 'o', 'n']

/-- The closing fence. -/
def fenceTail : List Char := [btChar, btChar, btChar]

/-- Model of `List.take`-based starts-with on char lists. -/
def startsWithChars (p s : List Char) : Bool := s.take p.length == p

/-- Ends-with on char lists. -/
def endsWithChars (p s : List Char) : Bool := s.reverse.take p.length == p.reverse

/-- `text.strip()` followed by ``re.sub(r'^```json\s*', '', ...)`` and
``re.sub(r'\s*```$', '', ...)`` — shared verbatim by the detector parse
(`image_extractor.py` 224-226) and the plan parse (`agent.py` 324-326). -/
def stripFences (s : String) : String :=
  let cs := ((s.toList.dropWhile Char.isWhitespace).reverse.dropWhile
    Char.isWhitespace).reverse
  let cs := if startsWithChars fenceHead cs then (cs.drop 7).dropWhile Char.isWhitespace
    else cs
  let cs := if endsWithChars fenceTail cs then
    ((cs.reverse.drop 3).dropWhile Char.isWhitespace).reverse else cs
  String.mk cs

/-- Is the value a JSON object (a Python dict)? -/
def isJsonObj (j : Json) : Bool :=
  match j with
  | Json.obj _ => true
  | _ => false

/-- `d.get("page") in valid_pages` for one detection dict. -/
def detPageValid (validPages : List ℤ) (d : Json) : Bool :=
  match jsonGet d ("page") with
  | some (Json.num p) => validPages.any (fun v => ((v : ℚ) == p))
  | _ => false

/-- `result.get("detections", [])` plus the valid-page filter
(`image_extractor.py` 229-245).  A non-dict result, a non-list `detections`
value, or a non-dict element raises `AttributeError`/`TypeError`, which the
surrounding `except Exception` turns into an empty detection list. -/
def detectionsOf (validPages : List ℤ) (j : Json) : List Json :=
  match j with
  | Json.obj _ =>
    match (jsonGet j ("detections")).getD (Json.arr []) with
    | Json.arr l =>
      if l.all isJsonObj then l.filter (detPageValid validPages) else []
    | _ => []
  | _ => []

/-- The parsing portion of `_detect_figures_batch` (lines 224-245): strip the
code fences, `json.loads` the whole remainder, extract and filter the
detections; any decode failure yields the empty list. -/
def parseDetectorResponse (validPages : List ℤ) (text : String) : List Json :=
  match jsonDecode (stripFences text) with
  | none => []
  | some j => detectionsOf validPages j

/-- `_detect_figures_batch` given the raw LLM outcome: `none` models a raised
exception or an empty/absent `response.text` (lines 209-219, 247-249). -/
def detectFiguresBatch (rawResponse : Option String) (validPages : List ℤ) :
    List Json :=
  match rawResponse with
  | none => []
  | some t => if t = "" then [] else parseDetectorResponse validPages t

/-- Result of `extract_images_batch`; failure results carry no
`markdown_images` key, modelled as the empty list. -/
structure ExtractResult where
  success : Bool
  extracted_images : List FigData
  markdown_images : List String
  message : String
deriving DecidableEq

/-- `OnDemandImageExtractor.extract_images_batch` (lines 47-152): reject empty
input; group by page; render; fail when no page rendered; detect (LLM call
abstracted as `llmDetect`, its parse modelled above); fail when no detection
survives; crop and save; report the newly saved records. -/
def extractImagesBatch (pageCount : ℕ) (render : ℤ → Option PageImage)
    (llmDetect : List (ℤ × PageImage) → List (ℤ × List String) → Option String)
    (saveOk : String → Bool) (cfg : ExtractorConfig)
    (s : ExtractorState) (reqs : List ExtractRequest) :
    ExtractorState × ExtractResult :=
  if reqs.isEmpty then
    (s, ⟨false, [], [], "No images requested for extraction"⟩)
  else
    let grouped := groupRequests reqs
    let pageImages := renderPages pageCount render grouped
    if pageImages.isEmpty then
      (s, ⟨false, [], [], "No valid pages to render"⟩)
    else
      let validPages := pageImages.map (fun e => e.1)
      let dets := detectFiguresBatch (llmDetect pageImages grouped) validPages
      if dets.isEmpty then
        (s, ⟨false, [], [], "Could not detect any figures matching the descriptions"⟩)
      else
        let out := cropAndSave pageImages cfg saveOk dets s
        if out.2.isEmpty then
          (out.1, ⟨false, [], [], "Failed to crop any figures"⟩)
        else
          (out.1, ⟨true, out.2,
            out.2.map (fun img => mdRef img.title img.path_relative),
            "Successfully extracted " ++ toString out.2.length ++ " figures."⟩)

/-- Balanced-brace scan of `_generate_quick_scan_plan` (agent.py lines
329-341): position, running (signed) brace count, recorded start index. -/
def braceScanAux : List Char → ℕ → ℤ → Option ℕ → Option (ℕ × ℕ)
  | [], _, _, _ => none
  | c :: rest, i, count, startIdx =>
    if c == lbraceChar then
      braceScanAux rest (i + 1) (count + 1)
        (if count = 0 then some i else startIdx)
    else if c == rbraceChar then
      match startIdx with
      | some st =>
        if count - 1 = 0 then some (st, i + 1)
        else braceScanAux rest (i + 1) (count - 1) startIdx
      | none => braceScanAux rest (i + 1) (count - 1) none
    else braceScanAux rest (i + 1) count startIdx

/-- Extract the first balanced top-level `\x7b...\x7d` slice (agent.py lines
328-344); the text is returned unchanged when no balanced object is found. -/
def braceExtract (s : String) : String :=
  match braceScanAux s.toList 0 0 none with
  | some (st, en) => String.mk ((s.toList.drop st).take (en - st))
  | none => s

/-- Parsed reading-plan payload with its fallback defaults. -/
structure PlanResult where
  title : String
  content_analysis : Json
  reading_plan : Json

/-- The parsing portion of `_generate_quick_scan_plan` (agent.py lines
322-358): strip fences, extract the first balanced brace slice, decode; any
`JSONDecodeError`/`AttributeError` yields the empty defaults. -/
def parseQuickScanPlan (responseText : String) : PlanResult :=
  match jsonDecode (braceExtract (stripFences responseText)) with
  | some (Json.obj kvs) =>
    { title := jsonGetStr (Json.obj kvs) ("title") ("")
      content_analysis := (jsonGet (Json.obj kvs) ("content_analysis")).getD (Json.obj [])
      reading_plan := (jsonGet (Json.obj kvs) ("reading_plan")).getD (Json.arr []) }
  | _ => { title := "", content_analysis := Json.obj [], reading_plan := Json.arr [] }

/-- Modelled from the spec: the spec asserts that the *Detector* response is
parsed by "strip code-fence wrapping if present, then extract the first
balanced top-level object by brace-matching (not naive regex) before
JSON-decoding".  This definition follows those words (the brace-matching
model itself is the source's own, from the plan parser); it is compared
against `parseDetectorResponse`, the parse the detector path actually
performs. -/
def detectorParseSpec (validPages : List ℤ) (text : String) : List Json :=
  match jsonDecode (braceExtract (stripFences text)) with
  | none => []
  | some j => detectionsOf validPages j

/-- Stage-machine state of `ConversationalPaperAgent`: `current_stage_id` and
`current_section` (both `None` until set). -/
structure AgentStageState where
  current_stage_id : Option String
  current_section : Option String
deriving DecidableEq

/-- Arguments of an `execute_step` tool call; every key is optional. -/
structure ExecuteStepArgs where
  previous_stage : Option String
  next_stage : Option String
  mode : Option String
  reason : Option String
  section_name : Option String
deriving DecidableEq

/-- The structured result of the `execute_step` branch; `stage_context` is
present only in qa mode, `stage_instructions` and `section_name` only in
transition mode. -/
structure StepResult where
  success : Bool
  mode : String
  previous_stage : String
  next_stage : String
  stage_name : String
  reason : String
  action_required : String
  stage_context : Option String
  stage_instructions : Option String
  section_name : Option String
deriving DecidableEq

/-- Python `a or default` for an optional string (`None` and `""` are falsy). -/
def pyOr (a : Option String) (d : String) : String :=
  match a with
  | some v => if v = "" then d else v
  | none => d

/-- The `execute_step` branch of `_execute_function` (agent.py lines
876-921).  `getStageName`/`getStagePrompt` abstract the prompt-table lookups
(`get_stage_name`, `get_stage_prompt`).  The handler assigns
`current_stage_id := next_stage` unconditionally — before the mode is even
inspected — and records `section_name` into `current_section` only when the
next stage is `section_deep_dive`. -/
def executeStep (getStageName getStagePrompt : String → String)
    (s : AgentStageState) (args : ExecuteStepArgs) :
    AgentStageState × StepResult :=
  let previousStage := args.previous_stage.getD (pyOr s.current_stage_id ("quick_scan"))
  let nextStage := args.next_stage.getD ("quick_scan")
  let mode := args.mode.getD ("transition")
  let reason := args.reason.getD ("")
  let sectionName := args.section_name
  let stageName := getStageName nextStage
  let stagePrompt := getStagePrompt nextStage
  let s1 : AgentStageState := { s with current_stage_id := some nextStage }
  let s2 : AgentStageState :=
    if nextStage = "section_deep_dive" ∧ sectionName.getD ("") ≠ "" then
      { s1 with current_section := sectionName }
    else s1
  if mode = "qa" then
    (s2, { success := true, mode := "qa", previous_stage := previousStage,
           next_stage := nextStage, stage_name := stageName, reason := reason,
           action_required := "Answer the user\x27s question directly. Use the current stage context but do NOT regenerate the full stage content.",
           stage_context := some stagePrompt, stage_instructions := none,
           section_name := none })
  else
    let base := "IMPORTANT: You MUST now immediately generate the FULL " ++
      stageName ++ " content. Do NOT just acknowledge - perform the complete stage analysis now."
    (s2, { success := true, mode := "transition", previous_stage := previousStage,
           next_stage := nextStage, stage_name := stageName, reason := reason,
           action_required := if sectionName.getD ("") ≠ "" then
             base ++ " Focus on the section: " ++ sectionName.getD ("") else base,
           stage_context := none, stage_instructions := some stagePrompt,
           section_name := if sectionName.getD ("") ≠ "" then sectionName else none })

/-- Result of the `display_images` branch. -/
structure DisplayResult where
  success : Bool
  count : ℕ
  markdown_images : List String
  instruction : String
deriving DecidableEq

/-- One iteration of the `display_images` index loop (agent.py lines
743-750): an index inside `0 <= idx < len(self.extracted_images)` appends
one markdown reference, every other index is logged and skipped. -/
def displayStep (catalog : List FigData) (acc : List String) (idx : ℤ) :
    List String :=
  if 0 ≤ idx ∧ idx < (catalog.length : ℤ) then
    match catalog[idx.toNat]? with
    | some img => acc ++ [mdRef img.title img.path_relative]
    | none => acc
  else acc

/-- The `display_images` result: always successful, skipped indices simply
contribute nothing (agent.py lines 752-759). -/
def displayImages (catalog : List FigData) (indices : List ℤ) : DisplayResult :=
  let refs := indices.foldl (displayStep catalog) []
  { success := true, count := refs.length, markdown_images := refs,
    instruction := "Include these images in your response using the markdown above." }

/-- An inference response as the turn loop observes it: the requested tool
calls (by name) and the text parts of its first candidate (empty list when
there is no candidate or no parts). -/
structure LlmResponse where
  function_calls : List String
  textParts : List String
deriving DecidableEq

/-- `_extract_text_response` (agent.py lines 931-941): join the non-empty
text parts, falling back to the apology string. -/
def extractTextResponse (r : LlmResponse) : String :=
  let tp := r.textParts.filter (fun t => t ≠ "")
  if tp = [] then ("I apologize, I couldn\x27t generate a response.")
  else (String.intercalate (" ") tp).trim

/-- The `while iteration < max_iterations` tool-call loop of
`_handle_function_calls` (agent.py lines 617-707), abstracted over the
inference service: `llm k` is the response to the `k`-th resubmission (the
dispatch outcomes are fed back through the growing `contents`, which the
resubmission stream subsumes).  Returns the final response together with the
number of dispatch rounds performed. -/
def turnLoopAux (llm : ℕ → LlmResponse) : ℕ → ℕ → LlmResponse → LlmResponse × ℕ
  | 0, rounds, r => (r, rounds)
  | fuel + 1, rounds, r =>
    if r.function_calls = [] then (r, rounds)
    else turnLoopAux llm fuel (rounds + 1) (llm rounds)

/-- `_handle_function_calls` with its hard ceiling `max_iterations = 10`. -/
def handleFunctionCalls (llm : ℕ → LlmResponse) (r : LlmResponse) :
    LlmResponse × ℕ :=
  turnLoopAux llm 10 0 r

/-- Renderer stub for the end-to-end scenario: only page 3 is valid, and it
rasterizes to an 800×1000 image. -/
def demoRender : ℤ → Option PageImage :=
  fun p => if p = 3 then some ⟨800, 1000⟩ else none

/-- Raw Detector response of the end-to-end scenario: one detection on
page 3 with bbox `[100, 100, 400, 1000]` titled `Fig. 1`. -/
def demoRaw : String :=
  "\x7b\"detections\": [\x7b\"page\": 3, \"bbox\": [100, 100, 400, 1000], \"title\": \"Fig. 1\"\x7d]\x7d"

/-- Deterministic Detector stub returning `demoRaw` on every call. -/
def demoDetect : List (ℤ × PageImage) → List (ℤ × List String) → Option String :=
  fun _ _ => some demoRaw

/-- Session configuration used by the scenarios. -/
def demoCfg : ExtractorConfig := ⟨"paper", "up/paperF", "paperF"⟩

/-- The scenario request list `[(page: 3, description: architecture diagram)]`. -/
def demoReqs : List ExtractRequest := [⟨some 3, some ("architecture diagram")⟩]

/-- The parsed form of `demoRaw`'s single detection. -/
def demoDet : Json :=
  Json.obj [("page", Json.num 3),
    ("bbox", Json.arr [Json.num 100, Json.num 100, Json.num 400, Json.num 1000]),
    ("title", Json.str ("Fig. 1"))]

/-- First extraction call of the scenario, from a fresh session. -/
def demoRun1 : ExtractorState × ExtractResult :=
  extractImagesBatch 3 demoRender demoDetect (fun _ => true) demoCfg ⟨0, []⟩ demoReqs

/-- Second, identical call continuing from the first call's state. -/
def demoRun2 : ExtractorState × ExtractResult :=
  extractImagesBatch 3 demoRender demoDetect (fun _ => true) demoCfg demoRun1.1 demoReqs

/-- A detector response with prose before the JSON payload and no code
fence. -/
def proseResponse : String :=
  "Here is the result: \x7b\"detections\": [\x7b\"page\": 3\x7d]\x7d"

/-- The same payload wrapped in a markdown code fence. -/
def fencedResponse : String :=
  "```json\n\x7b\"detections\": [\x7b\"page\": 3\x7d]\x7d\n```"

/-- Stage-name/prompt lookup stub for the `execute_step` scenario. -/
def demoStageTable : String → String := fun sid => sid ++ "-prompt"

/-- A qa-mode `execute_step` call with `previous_stage = next_stage =
quick_scan`. -/
def qaDemoArgs : ExecuteStepArgs :=
  ⟨some ("quick_scan"), some ("quick_scan"), some ("qa"), none, none⟩

/-- Stage state at the moment of the qa call above: the recorded stage is
`methodology`. -/
def qaDemoState : AgentStageState := ⟨some ("methodology"), none⟩

/-- A detection whose padded and clamped rectangle degenerates: fractional
bbox `[0.9, 0.9, 0.1, 0.1]` on a 100×100 page. -/
def degenerateDet : Json :=
  Json.obj [("page", Json.num 1),
    ("bbox", Json.arr [Json.num (Rat.divInt 9 10), Json.num (Rat.divInt 9 10),
      Json.num (Rat.divInt 1 10), Json.num (Rat.divInt 1 10)])]

/-- An always-tool-calling inference stub for the loop-bound witness. -/
def demoLlmStream : ℕ → LlmResponse := fun _ => ⟨["web_search"], ["partial text"]⟩

/-- Modelled from the spec for the C3 refinement comparison: "fractional
conversion using [x_min,y_min,x_max,y_max] order". -/
def fracConvSpec (b0 b1 b2 b3 : ℚ) (w h : ℤ) : Rect :=
  ⟨pyTrunc (b0 * (w : ℚ)), pyTrunc (b1 * (h : ℚ)),
   pyTrunc (b2 * (w : ℚ)), pyTrunc (b3 * (h : ℚ))⟩

/-- Modelled from the spec for the C3 refinement comparison: "per-mille
conversion with axis order reversed, interpreting the box as
[y_min, x_min, y_max, x_max]". -/
def perMilleRevConvSpec (b0 b1 b2 b3 : ℚ) (w h : ℤ) : Rect :=
  ⟨pyTrunc (b1 / 1000 * (w : ℚ)), pyTrunc (b0 / 1000 * (h : ℚ)),
   pyTrunc (b3 / 1000 * (w : ℚ)), pyTrunc (b2 / 1000 * (h : ℚ))⟩

/-- Modelled from the spec for the C3 refinement comparison: "values taken
directly as pixel coordinates in [x_min,y_min,x_max,y_max] order". -/
def pixelPassSpec (b0 b1 b2 b3 : ℚ) : Rect :=
  ⟨pyTrunc b0, pyTrunc b1, pyTrunc b2, pyTrunc b3⟩

/-- The per-index selector of `display_images`, used to state C8: a valid
index selects one markdown reference, an invalid one selects nothing. -/
def displaySelect (catalog : List FigData) (idx : ℤ) : Option String :=
  if 0 ≤ idx ∧ idx < (catalog.length : ℤ) then
    (catalog[idx.toNat]?).map (fun img => mdRef img.title img.path_relative)
  else none

/-- Truncating division is invariant under scaling numerator and denominator
by a positive factor. -/
theorem tdiv_mul_mul_of_pos (g x y : ℤ) (hg : 0 < g) (hy : 0 < y) :
    (g * x).tdiv (g * y) = x.tdiv y := by
  rcases le_or_lt 0 x with hx | hx
  · rw [Int.tdiv_eq_ediv (by positivity) (by positivity),
      Int.tdiv_eq_ediv hx hy.le, Int.mul_ediv_mul_of_pos _ _ hg]
  · have h1 : (g * x).tdiv (g * y) = -((g * (-x)).tdiv (g * y)) := by
      rw [show g * x = -(g * (-x)) by ring, Int.neg_tdiv]
    have h2 : x.tdiv y = -((-x).tdiv y) := by
      rw [show x.tdiv y = (- -x).tdiv y by rw [neg_neg], Int.neg_tdiv]
    have hgx : (0 : ℤ) ≤ g * (-x) := mul_nonneg hg.le (by linarith)
    rw [h1, h2, Int.tdiv_eq_ediv hgx (by positivity),
      Int.tdiv_eq_ediv (by linarith) hy.le, Int.mul_ediv_mul_of_pos _ _ hg]

/-- Truncating division only depends on the value of the fraction. -/
theorem tdiv_congr {a b c d : ℤ} (hb : 0 < b) (hd : 0 < d)
    (h : a * d = c * b) : a.tdiv b = c.tdiv d := by
  have h1 := tdiv_mul_mul_of_pos d a b hd hb
  have h2 := tdiv_mul_mul_of_pos b c d hb hd
  rw [← h1, ← h2, show d * a = b * c by rw [mul_comm d a, h, mul_comm c b],
    show d * b = b * d by ring]

/-- `pyTrunc` of a fraction given by numerator and positive denominator. -/
theorem pyTrunc_divInt {a b : ℤ} (hb : 0 < b) :
    pyTrunc (Rat.divInt a b) = a.tdiv b := by
  set q := Rat.divInt a b with hq
  have hdpos : (0 : ℤ) < (q.den : ℤ) := by exact_mod_cast q.den_pos
  have h0 : Rat.divInt q.num (q.den : ℤ) = Rat.divInt a b := by
    rw [Rat.num_divInt_den, hq]
  have hcross : q.num * b = a * (q.den : ℤ) :=
    (Rat.divInt_eq_iff (by exact_mod_cast q.den_nz) (by exact hb.ne')).mp h0
  exact tdiv_congr hdpos hb hcross

/-- The evaluable form `pyIntMul` is exactly Python's `int(q * z)`. -/
theorem pyIntMul_eq_pyTrunc (q : ℚ) (z : ℤ) :
    pyIntMul q z = pyTrunc (q * (z : ℚ)) := by
  have h : q * (z : ℚ) = Rat.divInt (q.num * z) (q.den : ℤ) := by
    conv_lhs => rw [← Rat.num_divInt_den q, Rat.intCast_eq_divInt z]
    rw [Rat.divInt_mul_divInt', mul_one]
  have hdpos : (0 : ℤ) < (q.den : ℤ) := by exact_mod_cast q.den_pos
  rw [h, pyTrunc_divInt hdpos, pyIntMul]

/-- The evaluable form `pyIntPerMille` is exactly Python's
`int((q / 1000.0) * z)`. -/
theorem pyIntPerMille_eq_pyTrunc (q : ℚ) (z : ℤ) :
    pyIntPerMille q z = pyTrunc (q / 1000 * (z : ℚ)) := by
  have h1000 : (1000 : ℚ) = ((1000 : ℤ) : ℚ) := by norm_num
  have h : q / 1000 * (z : ℚ) = Rat.divInt (q.num * z) ((q.den : ℤ) * 1000) := by
    rw [h1000, Rat.div_def', Rat.num_intCast, Rat.den_intCast,
      Rat.intCast_eq_divInt z, Rat.divInt_mul_divInt']
    norm_num
  have hdpos : (0 : ℤ) < (q.den : ℤ) * 1000 := by positivity
  rw [h, pyTrunc_divInt hdpos, pyIntPerMille]

/-- C3: the coordinate normalization dispatches on the bounding box's maximum
value — `max ≤ 1` yields the fractional conversion in
`[x_min, y_min, x_max, y_max]` order, `1 < max ≤ 1000` yields the per-mille
conversion with the axis order reversed (`[y_min, x_min, y_max, x_max]`), and
`max > 1000` takes the values directly as pixel coordinates — all before
padding and clamping. -/
theorem coordinate_format_dispatch (b0 b1 b2 b3 : ℚ) (w h : ℤ)
    (_hw : 0 < w) (_hh : 0 < h) :
    (max b0 (max b1 (max b2 b3)) ≤ 1 →
      normalizeBbox b0 b1 b2 b3 w h = fracConvSpec b0 b1 b2 b3 w h) ∧
    (1 < max b0 (max b1 (max b2 b3)) → max b0 (max b1 (max b2 b3)) ≤ 1000 →
      normalizeBbox b0 b1 b2 b3 w h = perMilleRevConvSpec b0 b1 b2 b3 w h) ∧
    (1000 < max b0 (max b1 (max b2 b3)) →
      normalizeBbox b0 b1 b2 b3 w h = pixelPassSpec b0 b1 b2 b3) := by
  refine ⟨fun h1 => ?_, fun h1 h2 => ?_, fun h1 => ?_⟩ <;>
    simp only [normalizeBbox, fracConvSpec, perMilleRevConvSpec, pixelPassSpec]
  · rw [if_pos h1]
    simp [pyIntMul_eq_pyTrunc]
  · rw [if_neg (by linarith), if_pos h2]
    simp [pyIntPerMille_eq_pyTrunc]
  · rw [if_neg (by linarith), if_neg (by linarith)]

/-- Witness for `coordinate_format_dispatch` at the fractional box
`[1/2, 1/2, 1/2, 1/2]` on a 100×200 image. -/
theorem coordinate_format_dispatch_witness :
    normalizeBbox (Rat.divInt 1 2) (Rat.divInt 1 2) (Rat.divInt 1 2)
        (Rat.divInt 1 2) 100 200 =
      fracConvSpec (Rat.divInt 1 2) (Rat.divInt 1 2) (Rat.divInt 1 2)
        (Rat.divInt 1 2) 100 200 :=
  (coordinate_format_dispatch (Rat.divInt 1 2) (Rat.divInt 1 2) (Rat.divInt 1 2)
    (Rat.divInt 1 2) 100 200 (by norm_num) (by norm_num)).1 (by decide)

/-- C4: after padding and clamping, every point of the crop rectangle lies
inside `[0, width] × [0, height]`; and a detection whose padded/clamped
rectangle has non-positive width or height is skipped by the crop-and-save
loop — the batch continues on the remaining detections instead of failing. -/
theorem crop_bounds_and_degenerate_skip (b0 b1 b2 b3 : ℚ) (w h : ℤ)
    (_hw : 0 < w) (_hh : 0 < h)
    (pages : List (ℤ × PageImage)) (det : Json) (rest : List Json)
    (cfg : ExtractorConfig) (saveOk : String → Bool) (s : ExtractorState)
    (r : Rect) (hcr : cropRect pages det = some r)
    (hdeg : r.x1 ≤ r.x0 ∨ r.y1 ≤ r.y0) :
    rectWithin (padClamp w h (normalizeBbox b0 b1 b2 b3 w h)) w h ∧
    cropAndSave pages cfg saveOk (det :: rest) s =
      cropAndSave pages cfg saveOk rest s := by
  constructor
  · intro x y h1 h2 h3 h4
    simp only [padClamp] at h1 h2 h3 h4
    exact ⟨le_trans (le_max_left 0 _) h1, le_trans h2 (min_le_left w _),
      le_trans (le_max_left 0 _) h3, le_trans h4 (min_le_left h _)⟩
  · have hp : ∃ p, jsonGet det ("page") = some (Json.num p) := by
      cases hj : jsonGet det ("page") with
      | none => simp [cropRect, hj] at hcr
      | some j =>
        cases j with
        | num p => exact ⟨p, rfl⟩
        | null => simp [cropRect, hj] at hcr
        | bool b => simp [cropRect, hj] at hcr
        | str a => simp [cropRect, hj] at hcr
        | arr l => simp [cropRect, hj] at hcr
        | obj kvs => simp [cropRect, hj] at hcr
    obtain ⟨p, hp⟩ := hp
    have hstep : cropStep pages cfg saveOk (s, []) det = (s, []) := by
      unfold cropStep
      rw [hp, hcr]
      simp [hdeg]
    simp only [cropAndSave, List.foldl_cons, hstep]

/-- Witness for `crop_bounds_and_degenerate_skip`: the fractional box
`[0.9, 0.9, 0.1, 0.1]` on a 100×100 page pads/clamps to the degenerate
rectangle `(80, 80, 20, 20)`, so the detection is dropped. -/
theorem crop_bounds_and_degenerate_skip_witness :
    rectWithin (padClamp 100 100 (normalizeBbox (Rat.divInt 9 10)
      (Rat.divInt 9 10) (Rat.divInt 1 10) (Rat.divInt 1 10) 100 100)) 100 100 ∧
    cropAndSave [(1, ⟨100, 100⟩)] demoCfg (fun _ => true)
        (degenerateDet :: []) ⟨0, []⟩ =
      cropAndSave [(1, ⟨100, 100⟩)] demoCfg (fun _ => true) [] ⟨0, []⟩ :=
  crop_bounds_and_degenerate_skip (Rat.divInt 9 10) (Rat.divInt 9 10)
    (Rat.divInt 1 10) (Rat.divInt 1 10) 100 100 (by norm_num) (by norm_num)
    [(1, ⟨100, 100⟩)] degenerateDet [] demoCfg (fun _ => true) ⟨0, []⟩
    ⟨80, 80, 20, 20⟩ (by rfl) (Or.inl (by decide))

/-- The tool-call loop performs at most `fuel` further dispatch rounds. -/
theorem turnLoopAux_le (llm : ℕ → LlmResponse) :
    ∀ (fuel k : ℕ) (r : LlmResponse), (turnLoopAux llm fuel k r).2 ≤ k + fuel := by
  intro fuel
  induction fuel with
  | zero => intro k r; simp [turnLoopAux]
  | succ n ih =>
    intro k r
    by_cases hr : r.function_calls = []
    · simp [turnLoopAux, hr]
    · have h := ih (k + 1) (llm k)
      simp only [turnLoopAux, hr, if_neg, ite_false]
      omega

/-- Against an inference stream that always requests tool calls, the loop
runs its fuel out exactly, ending on the response to resubmission
`k + fuel - 1`. -/
theorem turnLoopAux_all_calls (llm : ℕ → LlmResponse)
    (hall : ∀ k, (llm k).function_calls ≠ []) :
    ∀ (fuel k : ℕ) (r : LlmResponse), r.function_calls ≠ [] →
      turnLoopAux llm fuel k r =
        if fuel = 0 then (r, k) else (llm (k + fuel - 1), k + fuel) := by
  intro fuel
  induction fuel with
  | zero => intro k r _; simp [turnLoopAux]
  | succ n ih =>
    intro k r hr
    rw [show turnLoopAux llm (n + 1) k r = turnLoopAux llm n (k + 1) (llm k) by
      simp [turnLoopAux, hr]]
    rcases Nat.eq_zero_or_pos n with h0 | hpos
    · subst h0; simp [turnLoopAux]
    · rw [ih (k + 1) (llm k) (hall k)]
      have h1 : k + 1 + n - 1 = k + (n + 1) - 1 := by omega
      have h2 : k + 1 + n = k + (n + 1) := by omega
      simp [Nat.pos_iff_ne_zero.mp hpos, h1, h2]

/-- C5: for every inference-response stream in which each response requests
at least one tool call, the per-turn loop performs exactly its hard ceiling
of 10 dispatch rounds and then stops, handing the last response to the text
extraction (which totally produces a string — the joined text or the
fallback); and for every stream whatsoever the loop performs at most 10
rounds. -/
theorem tool_loop_ceiling (llm : ℕ → LlmResponse) (r0 : LlmResponse)
    (hall : ∀ k, (llm k).function_calls ≠ []) (h0 : r0.function_calls ≠ []) :
    (handleFunctionCalls llm r0).2 = 10 ∧
    (handleFunctionCalls llm r0).1 = llm 9 ∧
    extractTextResponse (handleFunctionCalls llm r0).1 =
      extractTextResponse (llm 9) ∧
    (∀ (llm2 : ℕ → LlmResponse) (r : LlmResponse),
      (handleFunctionCalls llm2 r).2 ≤ 10) := by
  have h := turnLoopAux_all_calls llm hall 10 0 r0 h0
  simp only [show (10 : ℕ) ≠ 0 by omega, if_neg, ite_false] at h
  refine ⟨?_, ?_, ?_, ?_⟩
  · rw [handleFunctionCalls, h]
  · rw [handleFunctionCalls, h]
  · rw [handleFunctionCalls, h]
  · intro llm2 r
    have hle := turnLoopAux_le llm2 10 0 r
    simpa using hle

/-- Witness for `tool_loop_ceiling`: a constant always-calling stub exhausts
the ceiling. -/
theorem tool_loop_ceiling_witness :
    (handleFunctionCalls demoLlmStream ⟨["execute_step"], []⟩).2 = 10 :=
  (tool_loop_ceiling demoLlmStream ⟨["execute_step"], []⟩
    (fun _ => by simp [demoLlmStream]) (by simp)).1

/-- C1 counterexample: a qa-mode `execute_step` call with
`previous_stage = next_stage = quick_scan`, issued while the recorded stage
is `methodology`, mutates `current_stage_id` — the handler assigns
`next_stage` unconditionally, so the claim "mode=qa with previous == next
never changes current_stage" is false as stated. -/
theorem execute_step_qa_counterexample :
    qaDemoArgs.mode = some ("qa") ∧
    qaDemoArgs.previous_stage = qaDemoArgs.next_stage ∧
    (executeStep demoStageTable demoStageTable qaDemoState qaDemoArgs).1.current_stage_id ≠
      qaDemoState.current_stage_id :=
  ⟨rfl, rfl, by decide⟩

/-- C1 amended: `execute_step` sets `current_stage_id := next_stage`
unconditionally (in qa mode as well, so a qa call leaves the stage unchanged
exactly when the recorded stage already equals `next_stage`; in transition
mode the stage always becomes `next_stage`), and a supplied non-empty
`section_name` is recorded into the focus field precisely when the next
stage is `section_deep_dive`. -/
theorem execute_step_stage_update (gName gPrompt : String → String)
    (s : AgentStageState) (args : ExecuteStepArgs) :
    (executeStep gName gPrompt s args).1.current_stage_id =
      some (args.next_stage.getD ("quick_scan")) ∧
    (executeStep gName gPrompt s args).1.current_section =
      (if args.next_stage.getD ("quick_scan") = "section_deep_dive" ∧
          args.section_name.getD ("") ≠ "" then args.section_name
        else s.current_section) ∧
    (executeStep gName gPrompt s args).2.success = true := by
  unfold executeStep
  by_cases hm : args.mode.getD ("transition") = "qa" <;>
    by_cases hs : args.next_stage.getD ("quick_scan") = "section_deep_dive" ∧
      args.section_name.getD ("") ≠ "" <;>
    simp [hm, hs]

/-- C2 counterexample: in the end-to-end scenario the detection's bbox
`[100, 100, 400, 1000]` has maximum exactly `1000`, so the per-mille
axis-reversed branch (not the pixel branch) applies, and the padded/clamped
crop rectangle is `(70, 90, 800, 410)` — not the claimed `[90, 90, 410, 1000]`
(nor that rectangle with `x_max` clamped to the width `800`). -/
theorem extract_scenario_counterexample :
    parseDetectorResponse [3] demoRaw = [demoDet] ∧
    cropRect [(3, ⟨800, 1000⟩)] demoDet = some ⟨70, 90, 800, 410⟩ ∧
    (⟨70, 90, 800, 410⟩ : Rect) ≠ ⟨90, 90, 410, 1000⟩ ∧
    (⟨70, 90, 800, 410⟩ : Rect) ≠ ⟨90, 90, 800, 1000⟩ :=
  ⟨rfl, rfl, by decide, by decide⟩

/-- C2 amended: the scenario produces exactly one FigureRecord, the catalog
grows to size 1 and the extraction counter to 1; but the crop rectangle is
`(70, 90, 800, 410)`, computed by the per-mille axis-reversed branch because
`max(bbox) = 1000 ≤ 1000`. -/
theorem extract_scenario_result :
    demoRun1.1.extraction_count = 1 ∧
    demoRun1.1.extracted_images.length = 1 ∧
    demoRun1.2.success = true ∧
    demoRun1.2.extracted_images.length = 1 ∧
    demoRun1.1.extracted_images.map (fun f => f.title) = [("Fig. 1" : String)] ∧
    demoRun1.1.extracted_images.map (fun f => f.page) = [(3 : ℚ)] ∧
    cropRect [(3, ⟨800, 1000⟩)] demoDet = some ⟨70, 90, 800, 410⟩ :=
  ⟨rfl, rfl, rfl, rfl, rfl, rfl, rfl⟩

/-- C6 counterexample: on a detector response with prose before the JSON
payload, the actual detector parse (fence strip, then whole-string decode)
yields the empty list, while the brace-matching parse the spec describes
recovers the detection — so the detector path performs no brace-matching. -/
theorem detector_parse_counterexample :
    parseDetectorResponse [3] proseResponse = [] ∧
    jsonDecode (stripFences proseResponse) = none ∧
    detectorParseSpec [3] proseResponse = [Json.obj [("page", Json.num 3)]] :=
  ⟨rfl, rfl, rfl⟩

/-- C6 amended: the detector parse strips markdown code-fence wrapping and
then JSON-decodes the remainder directly — with no balanced-brace extraction,
which exists only in the quick-scan plan parser — and any decode failure
yields the empty detection list rather than an exception. -/
theorem detector_parse_fence_and_failure (validPages : List ℤ) (raw : String)
    (hfail : jsonDecode (stripFences raw) = none) :
    parseDetectorResponse validPages raw = [] ∧
    parseDetectorResponse [3] fencedResponse = [Json.obj [("page", Json.num 3)]] := by
  constructor
  · simp [parseDetectorResponse, hfail]
  · rfl

/-- Witness for `detector_parse_fence_and_failure` on a response that is not
JSON at all. -/
theorem detector_parse_fence_and_failure_witness :
    parseDetectorResponse [5] ("no json here") = [] ∧
    parseDetectorResponse [3] fencedResponse = [Json.obj [("page", Json.num 3)]] :=
  detector_parse_fence_and_failure [5] ("no json here") (by rfl)

/-- One crop-and-save iteration either skips the detection (state and batch
output untouched) or appends exactly one record to both, incrementing the
counter. -/
theorem cropStep_cases (pages : List (ℤ × PageImage)) (cfg : ExtractorConfig)
    (saveOk : String → Bool) (acc : ExtractorState × List FigData) (det : Json) :
    cropStep pages cfg saveOk acc det = acc ∨
    ∃ fd, cropStep pages cfg saveOk acc det =
      (⟨acc.1.extraction_count + 1, acc.1.extracted_images ++ [fd]⟩,
        acc.2 ++ [fd]) := by
  unfold cropStep
  split
  · dsimp only
    split_ifs with h1 h2
    · exact Or.inl rfl
    · exact Or.inr ⟨_, rfl⟩
    · exact Or.inl rfl
  · exact Or.inl rfl

/-- The crop-and-save batch only appends: the catalog after the batch is the
old catalog followed by exactly the batch's own output list. -/
theorem cropAndSave_append (pages : List (ℤ × PageImage)) (cfg : ExtractorConfig)
    (saveOk : String → Bool) (dets : List Json) (s : ExtractorState) :
    (cropAndSave pages cfg saveOk dets s).1.extracted_images =
      s.extracted_images ++ (cropAndSave pages cfg saveOk dets s).2 := by
  suffices haux : ∀ (acc : ExtractorState × List FigData) (base : List FigData),
      acc.1.extracted_images = base ++ acc.2 →
      (dets.foldl (cropStep pages cfg saveOk) acc).1.extracted_images =
        base ++ (dets.foldl (cropStep pages cfg saveOk) acc).2 by
    simpa [cropAndSave] using haux (s, []) s.extracted_images (by simp)
  induction dets with
  | nil => intro acc base h; simpa using h
  | cons d ds ih =>
    intro acc base h
    simp only [List.foldl_cons]
    apply ih
    rcases cropStep_cases pages cfg saveOk acc d with heq | ⟨fd, heq⟩
    · rw [heq]; exact h
    · rw [heq]; simp [h]

/-- Every `extract_images_batch` call leaves the existing catalog intact,
appending (possibly zero) new records at the end. -/
theorem extract_catalog_append (pageCount : ℕ) (render : ℤ → Option PageImage)
    (llmDetect : List (ℤ × PageImage) → List (ℤ × List String) → Option String)
    (saveOk : String → Bool) (cfg : ExtractorConfig) (s : ExtractorState)
    (reqs : List ExtractRequest) :
    ∃ newRecs,
      (extractImagesBatch pageCount render llmDetect saveOk cfg s reqs).1.extracted_images
        = s.extracted_images ++ newRecs := by
  unfold extractImagesBatch
  dsimp only
  split_ifs with h1 h2 h3 h4
  · exact ⟨[], by simp⟩
  · exact ⟨[], by simp⟩
  · exact ⟨[], by simp⟩
  · exact ⟨_, cropAndSave_append _ _ _ _ _⟩
  · exact ⟨_, cropAndSave_append _ _ _ _ _⟩

/-- C7: extraction is strictly append-only — every call appends its new
records after the existing catalog, never removing, replacing or reordering
entries — and two identical calls against the deterministic scenario stubs
append two separate records at positions 0 and 1 whose filenames embed the
increasing session-wide counter (`fig1`, `fig2`) and are distinct. -/
theorem extract_twice_append_only :
    (∀ (pageCount : ℕ) (render : ℤ → Option PageImage)
        (llmDetect : List (ℤ × PageImage) → List (ℤ × List String) → Option String)
        (saveOk : String → Bool) (cfg : ExtractorConfig) (s : ExtractorState)
        (reqs : List ExtractRequest),
      ∃ newRecs,
        (extractImagesBatch pageCount render llmDetect saveOk cfg s reqs).1.extracted_images
          = s.extracted_images ++ newRecs) ∧
    demoRun2.1.extracted_images.map (fun f => f.path_relative) =
      ["uploads/paperF/paper_page3_fig1_figure.png",
       "uploads/paperF/paper_page3_fig2_figure.png"] ∧
    (demoRun2.1.extracted_images.map (fun f => f.path_relative)).Nodup ∧
    demoRun2.1.extraction_count = 2 ∧
    demoRun2.1.extracted_images.take 1 = demoRun1.1.extracted_images ∧
    demoRun1.2.extracted_images.length = 1 ∧
    demoRun2.2.extracted_images.length = 1 :=
  ⟨extract_catalog_append, rfl, by decide, rfl, rfl, rfl, rfl⟩

/-- C8: `display_images` always returns success; its markdown references are
exactly one per in-range index, in order (out-of-range indices select
nothing, so a list of only invalid indices yields success with an empty
reference set), and the reported count matches. -/
theorem display_images_behaviour (catalog : List FigData) (indices : List ℤ) :
    (displayImages catalog indices).success = true ∧
    (displayImages catalog indices).markdown_images =
      indices.filterMap (displaySelect catalog) ∧
    (displayImages catalog indices).count =
      (indices.filterMap (displaySelect catalog)).length := by
  have key : ∀ (l : List ℤ) (acc : List String),
      l.foldl (displayStep catalog) acc = acc ++ l.filterMap (displaySelect catalog) := by
    intro l
    induction l with
    | nil => intro acc; simp
    | cons x xs ih =>
      intro acc
      simp only [List.foldl_cons, List.filterMap_cons]
      by_cases hx : 0 ≤ x ∧ x < (catalog.length : ℤ)
      · rcases hg : catalog[x.toNat]? with _ | img
        · simp [displayStep, displaySelect, hx, hg, ih]
        · simp [displayStep, displaySelect, hx, hg, ih]
      · simp [displayStep, displaySelect, hx, ih]
  refine ⟨rfl, ?_, ?_⟩
  · simpa [displayImages] using key indices []
  · simp only [displayImages]
    rw [key indices []]
    simp

/-- C9: an empty request list yields the structured `No images requested`
failure, and a request list none of whose pages renders yields the
structured `No valid pages` failure; in both cases nothing is raised and the
extractor state — catalog and counter — is completely unchanged. -/
theorem extract_rejects_empty_and_unrendered (pageCount : ℕ)
    (render : ℤ → Option PageImage)
    (llmDetect : List (ℤ × PageImage) → List (ℤ × List String) → Option String)
    (saveOk : String → Bool) (cfg : ExtractorConfig) (s : ExtractorState)
    (reqs : List ExtractRequest)
    (h : reqs = [] ∨ renderPages pageCount render (groupRequests reqs) = []) :
    (extractImagesBatch pageCount render llmDetect saveOk cfg s reqs).2.success = false ∧
    (extractImagesBatch pageCount render llmDetect saveOk cfg s reqs).1 = s ∧
    (extractImagesBatch pageCount render llmDetect saveOk cfg s reqs).2.extracted_images = [] ∧
    (extractImagesBatch pageCount render llmDetect saveOk cfg s reqs).2.message =
      (if reqs = [] then "No images requested for extraction"
        else "No valid pages to render") := by
  by_cases h1 : reqs = []
  · subst h1
    simp [extractImagesBatch]
  · rcases h with h | h
    · exact absurd h h1
    · simp [extractImagesBatch, List.isEmpty_iff, h1, h]

/-- Witness for `extract_rejects_empty_and_unrendered` at the empty request
list. -/
theorem extract_rejects_empty_witness :
    (extractImagesBatch 0 (fun _ => none) (fun _ _ => none) (fun _ => true)
        demoCfg ⟨0, []⟩ []).2.success = false ∧
    (extractImagesBatch 0 (fun _ => none) (fun _ _ => none) (fun _ => true)
        demoCfg ⟨0, []⟩ []).1 = ⟨0, []⟩ ∧
    (extractImagesBatch 0 (fun _ => none) (fun _ _ => none) (fun _ => true)
        demoCfg ⟨0, []⟩ []).2.extracted_images = [] ∧
    (extractImagesBatch 0 (fun _ => none) (fun _ _ => none) (fun _ => true)
        demoCfg ⟨0, []⟩ []).2.message =
      (if ([] : List ExtractRequest) = [] then "No images requested for extraction"
        else "No valid pages to render") :=
  extract_rejects_empty_and_unrendered 0 (fun _ => none) (fun _ _ => none)
    (fun _ => true) demoCfg ⟨0, []⟩ [] (Or.inl rfl)

/-- C10: a request entry with a missing `page_number` is treated as page 1
and a missing `description` as the literal description `figure`; the whole
extraction behaves identically to one with those fields supplied explicitly,
so incomplete entries are grouped and processed, not rejected. -/
theorem missing_request_fields_default (pageCount : ℕ)
    (render : ℤ → Option PageImage)
    (llmDetect : List (ℤ × PageImage) → List (ℤ × List String) → Option String)
    (saveOk : String → Bool) (cfg : ExtractorConfig) (s : ExtractorState)
    (rest : List ExtractRequest) :
    extractImagesBatch pageCount render llmDetect saveOk cfg s
        ({ page_number := none, description := none } :: rest) =
      extractImagesBatch pageCount render llmDetect saveOk cfg s
        ({ page_number := some 1, description := some ("figure") } :: rest) ∧
    groupRequests [{ page_number := none, description := none }] =
      [(1, [("figure" : String)])] :=
  ⟨rfl, rfl⟩
